import Mathlib

/-!
# Verification of the Hugging Face 3D generation server (`app.py`)

A shallow embedding of `src/hugging-face-server/app.py` (a Flask service that
stages an input image, calls a remote 3D-generation model, optionally converts
the returned GLB artifact to OBJ, and serves artifacts for download), together
with proofs of the specification's claims about it.

Modelling conventions:
* Python strings are `String`; the string operations the code uses
  (`split` on a one-character separator, `rsplit(".", 1)[1]`, `lower`,
  `replace`, `endswith`, slicing) are implemented over `List Char` so that
  every definition is executable and kernel-reducible.
* The filesystem is the part of the disk the server touches: the upload
  staging folder (a set of file names), the files directly in the output
  folder (name and creation timestamp), and the subdirectories of the output
  folder (name, creation timestamp, contained file names).
* Network effects (the gradio `client.predict` call, `requests.get`) and the
  mesh library (`trimesh.load`) are oracles: functions supplied as parameters
  that either succeed or raise, matching their use as opaque external calls.
* Python exceptions are `Except String`; a `try/except/finally` block is
  transcribed by threading the pending value/exception and the partial
  filesystem state through the `finally` step.  A Python local variable that
  may be unbound when `finally` runs (`image_path` in `generate_from_url`)
  is an `Option String`; referencing it unbound is the `raised` outcome.
-/

/-! ## Character-list string utilities -/

/-- `s.split(c)` for a one-character separator `c`, on the character list.
Mirrors Python semantics: `"".split(c) = [""]`, separators at the ends
produce empty groups. -/
def splitOnCharL (c : Char) : List Char → List (List Char)
  | [] => [[]]
  | x :: xs =>
    if x = c then [] :: splitOnCharL c xs
    else
      match splitOnCharL c xs with
      | [] => [[x]]
      | g :: gs => (x :: g) :: gs

/-- `str.lower()` (ASCII case folding, which is all the code relies on). -/
def pyLowerStr (s : String) : String := String.mk (s.data.map Char.toLower)

/-- `str.endswith(suffix)`. -/
def pyEndsWith (s suffix : String) : Bool := suffix.data.isSuffixOf s.data

/-- `str.strip()` restricted to ASCII whitespace, as used by `int()`/`float()`
argument cleaning. -/
def pyStrip (s : String) : String :=
  String.mk (((s.data.dropWhile Char.isWhitespace).reverse.dropWhile
    Char.isWhitespace).reverse)

/-- Decimal digits to a natural number. -/
def natFromDigits (l : List Char) : Nat :=
  l.foldl (fun a c => a * 10 + (c.toNat - '0'.toNat)) 0

/-- `f.replace(".glb", "")` as used by the model-listing endpoint: removes
every (non-overlapping, left-to-right) occurrence of `".glb"`. -/
def dropGlbOcc : List Char → List Char
  | '.' :: 'g' :: 'l' :: 'b' :: rest => dropGlbOcc rest
  | c :: rest => c :: dropGlbOcc rest
  | [] => []

/-- `f.replace(".glb", "")` on strings. -/
def pyReplaceGlb (s : String) : String := String.mk (dropGlbOcc s.data)

/-! ## Path helpers (`os.path`) -/

/-- `os.path.join(a, b)` for a relative file name `b`. -/
def pathJoin (a b : String) : String := a ++ "/" ++ b

/-- `os.path.basename`. -/
def pathBasename (s : String) : String :=
  String.mk ((splitOnCharL '/' s.data).getLastD [])

/-- `os.path.splitext(s)[0]` on a character list: drop the last dot-suffix,
where the leading dots of the name do not count as extension separators. -/
def splitextRootL (l : List Char) : List Char :=
  let lead := l.takeWhile (· = '.')
  let rest := l.drop lead.length
  if '.' ∈ rest then lead ++ List.intercalate ['.'] ((splitOnCharL '.' rest).dropLast)
  else l

/-- `os.path.splitext(s)[0]` on strings. -/
def splitextRoot (s : String) : String := String.mk (splitextRootL s.data)

/-! ## Configuration constants (`app.py` lines 20-22) -/

def UPLOAD_FOLDER : String := "uploads"

def OUTPUT_FOLDER : String := "output"

def ALLOWED_EXTENSIONS : List String := ["png", "jpg", "jpeg", "webp"]

/-! ## `allowed_file` (`app.py` lines 31-32) -/

/-- `filename.rsplit(".", 1)[1]`: the text after the last dot.  Only evaluated
by the code when a dot is present (short-circuit `and`). -/
def lastDotSuffix (filename : String) : String :=
  String.mk ((splitOnCharL '.' filename.data).getLastD [])

/-- `allowed_file`: `"." in filename and filename.rsplit(".", 1)[1].lower() in
ALLOWED_EXTENSIONS`. -/
def allowed_file (filename : String) : Bool :=
  filename.data.contains '.' &&
    ALLOWED_EXTENSIONS.contains (pyLowerStr (lastDotSuffix filename))

/-- Model of `werkzeug.utils.secure_filename`: path separators become
spaces, the whitespace-separated parts are joined with underscores,
characters outside `[A-Za-z0-9_.-]` are dropped, and leading/trailing dots
and underscores are stripped.  (The Windows reserved-name special case is
omitted; no claim depends on the sanitized spelling, only on the staged name
being used consistently.) -/
def secure_filename (filename : String) : String :=
  let cs := filename.data.map (fun c => if c = '/' ∨ c = '\\' then ' ' else c)
  let parts := (splitOnCharL ' ' cs).filter (· ≠ [])
  let joined := List.intercalate ['_'] parts
  let kept := joined.filter (fun c => c.isAlphanum ∨ c = '_' ∨ c = '.' ∨ c = '-')
  String.mk (((kept.dropWhile (fun c => c = '.' ∨ c = '_')).reverse.dropWhile
    (fun c => c = '.' ∨ c = '_')).reverse)

/-! ## Python values crossing the form/JSON boundary -/

/-- The Python scalar values the handlers inspect: form fields arrive as
strings, JSON fields as ints, floats, bools, strings or null, and the
handlers build parameter dictionaries out of them.  A float is kept as the
decimal `mant / 10 ^ scale` it was written as; no float arithmetic occurs in
the code. -/
inductive PyVal where
  | int (n : Int)
  | float (mant : Int) (scale : Nat)
  | bool (b : Bool)
  | str (s : String)
  | none
deriving DecidableEq, Repr

/-- CPython `int(x)` on the values that can appear here: ints pass through,
bools become 0/1, floats truncate toward zero, and strings are parsed as an
optionally signed decimal numeral surrounded by whitespace (`ValueError`
otherwise). -/
def pyIntOfString (s : String) : Except String Int :=
  let t := (pyStrip s).data
  let (sign, digits) : Int × List Char :=
    match t with
    | '-' :: rest => (-1, rest)
    | '+' :: rest => (1, rest)
    | cs => (1, cs)
  if digits ≠ [] ∧ digits.all (·.isDigit) then .ok (sign * natFromDigits digits)
  else .error "ValueError: invalid literal for int()"

def pyInt : PyVal → Except String Int
  | .int n => .ok n
  | .bool b => .ok (if b then 1 else 0)
  | .float mant scale => .ok (mant / (10 ^ scale : Nat))
  | .str s => pyIntOfString s
  | .none => .error "TypeError: int() argument"

/-- CPython `float(x)` on a string: an optionally signed decimal literal
`digits[.digits]` surrounded by whitespace (special forms such as exponents
or `inf` do not occur in this service's inputs and raise in the model). -/
def pyFloatOfString (s : String) : Except String PyVal :=
  let t := (pyStrip s).data
  let (sign, body) : Int × List Char :=
    match t with
    | '-' :: rest => (-1, rest)
    | '+' :: rest => (1, rest)
    | cs => (1, cs)
  match splitOnCharL '.' body with
  | [ip] =>
    if ip ≠ [] ∧ ip.all (·.isDigit) then .ok (.float (sign * natFromDigits ip) 0)
    else .error "ValueError: could not convert string to float"
  | [ip, fp] =>
    if (ip ≠ [] ∨ fp ≠ []) ∧ ip.all (·.isDigit) ∧ fp.all (·.isDigit) then
      .ok (.float (sign * natFromDigits (ip ++ fp)) fp.length)
    else .error "ValueError: could not convert string to float"
  | _ => .error "ValueError: could not convert string to float"

def pyFloat : PyVal → Except String PyVal
  | .int n => .ok (.float n 0)
  | .bool b => .ok (.float (if b then 1 else 0) 0)
  | .float mant scale => .ok (.float mant scale)
  | .str s => pyFloatOfString s
  | .none => .error "TypeError: float() argument"

/-- `x.lower()` on a dynamic value: only strings have the method
(`AttributeError` otherwise). -/
def pyLower : PyVal → Except String String
  | .str s => .ok (pyLowerStr s)
  | _ => .error "AttributeError: lower"

/-- `d.get(key, default)` on a Python dict modelled as an association list. -/
def dict_get (d : List (String × PyVal)) (key : String) (dflt : PyVal) : PyVal :=
  match d.lookup key with
  | some v => v
  | Option.none => dflt

/-- `request.form.get(key, default)`: form values are strings; the default is
whatever Python literal the call site wrote. -/
def form_get (form : List (String × String)) (key : String) (dflt : PyVal) : PyVal :=
  match form.lookup key with
  | some v => .str v
  | Option.none => dflt

/-- `request.form.get(key, default)` when the default is itself a string. -/
def form_get_str (form : List (String × String)) (key dflt : String) : String :=
  (form.lookup key).getD dflt

/-! ## The filesystem state the server touches

`app.py` reads and writes exactly two directory trees (lines 20-25): the
upload staging folder (flat, files only) and the output folder (files
`{job_id}.glb` plus one subdirectory per OBJ conversion).  Creation
timestamps (`os.path.getctime`) are abstract `Nat` instants. -/

/-- A subdirectory of the output folder. -/
structure OutDir where
  name : String
  ctime : Nat
  files : List String
deriving DecidableEq, Repr

/-- The server-visible filesystem. `uploads` holds the file names in
`UPLOAD_FOLDER`; `outFiles` the `(name, ctime)` of regular files directly in
`OUTPUT_FOLDER`; `outDirs` its subdirectories. -/
structure ServerFS where
  uploads : List String
  outFiles : List (String × Nat)
  outDirs : List OutDir
deriving DecidableEq, Repr

/-- `file.save(os.path.join(UPLOAD_FOLDER, name))` / staging `open(..., "wb")`:
creates (or overwrites) a file in the upload folder. -/
def saveUpload (fs : ServerFS) (name : String) : ServerFS :=
  { fs with uploads := if fs.uploads.contains name then fs.uploads else name :: fs.uploads }

/-- `os.path.exists(os.path.join(UPLOAD_FOLDER, name))`. -/
def uploadExists (fs : ServerFS) (name : String) : Bool :=
  fs.uploads.contains name

/-- `os.remove(os.path.join(UPLOAD_FOLDER, name))`. -/
def removeUpload (fs : ServerFS) (name : String) : ServerFS :=
  { fs with uploads := fs.uploads.filter (· ≠ name) }

/-- `os.path.exists(os.path.join(OUTPUT_FOLDER, name))`: true for a regular
file or a subdirectory of that name. -/
def outExists (fs : ServerFS) (name : String) : Bool :=
  (fs.outFiles.lookup name).isSome || (fs.outDirs.find? (·.name == name)).isSome

/-- `shutil.copy(src, os.path.join(OUTPUT_FOLDER, name))`: writes a regular
file (raising `IsADirectoryError` if a directory of that name exists); the
copy's ctime is the current instant. -/
def putOutFile (fs : ServerFS) (name : String) (now : Nat) :
    Except String ServerFS :=
  if (fs.outDirs.find? (·.name == name)).isSome then .error "IsADirectoryError"
  else .ok { fs with outFiles := (name, now) :: fs.outFiles.filter (·.1 ≠ name) }

/-- `os.makedirs(os.path.join(OUTPUT_FOLDER, name), exist_ok=True)`: no-op if
the directory exists, `FileExistsError` if a regular file of that name
exists, otherwise creates the directory. -/
def mkOutDir (fs : ServerFS) (name : String) (now : Nat) :
    Except String ServerFS :=
  if (fs.outFiles.lookup name).isSome then .error "FileExistsError"
  else if (fs.outDirs.find? (·.name == name)).isSome then .ok fs
  else .ok { fs with outDirs := ⟨name, now, []⟩ :: fs.outDirs }

/-- `scene.export(os.path.join(OUTPUT_FOLDER, dname, fname))`: writes a file
into an output subdirectory (which the caller has just created). -/
def putInDir (fs : ServerFS) (dname fname : String) : ServerFS :=
  { fs with outDirs := fs.outDirs.map (fun d =>
      if d.name == dname then
        { d with files := if d.files.contains fname then d.files else d.files ++ [fname] }
      else d) }

/-- `os.listdir(OUTPUT_FOLDER)`. -/
def listdirOutput (fs : ServerFS) : List String :=
  fs.outFiles.map (·.1) ++ fs.outDirs.map (·.name)

/-- `os.path.getctime(os.path.join(OUTPUT_FOLDER, name))`. -/
def getctimeOutput (fs : ServerFS) (name : String) : Nat :=
  match fs.outFiles.lookup name with
  | some t => t
  | Option.none =>
    match fs.outDirs.find? (·.name == name) with
    | some d => d.ctime
    | Option.none => 0

/-! ## The remote generation client (`fetch_3d_from_image`, lines 35-56) -/

/-- The keyword arguments of the single `client.predict(...)` call
(lines 40-53).  The four side-view images are always `None`. -/
structure RemoteArgs where
  image : String
  mv_image_front : PyVal := .none
  mv_image_back : PyVal := .none
  mv_image_left : PyVal := .none
  mv_image_right : PyVal := .none
  steps : PyVal
  guidance_scale : PyVal
  seed : PyVal
  octree_resolution : PyVal
  check_box_rembg : PyVal
  num_chunks : PyVal
  randomize_seed : PyVal
deriving DecidableEq, Repr

/-- The argument bag `fetch_3d_from_image` passes to `client.predict`,
assembled with `params.get(key, default)` exactly as in lines 46-52. -/
def fetchArgs (image_path : String) (params : List (String × PyVal)) : RemoteArgs :=
  { image := image_path
    steps := dict_get params "steps" (.int 30)
    guidance_scale := dict_get params "guidance_scale" (.int 5)
    seed := dict_get params "seed" (.int 1234)
    octree_resolution := dict_get params "octree_resolution" (.int 256)
    check_box_rembg := dict_get params "remove_background" (.bool true)
    num_chunks := dict_get params "num_chunks" (.int 8000)
    randomize_seed := dict_get params "randomize_seed" (.bool true) }

/-- The external effects: the hosted model RPC (returning the local path of
the produced GLB, or raising), `trimesh.load` (succeeding or raising), and
`requests.get(...)` + `raise_for_status()` for the URL variant. -/
structure Oracles where
  remote : RemoteArgs → Except String String
  trimesh_load : String → Except String Unit
  http_get : PyVal → Except String Unit

/-- `fetch_3d_from_image(image_path, params)`: one synchronous predict call. -/
def fetch_3d_from_image (o : Oracles) (image_path : String)
    (params : List (String × PyVal)) : Except String String :=
  o.remote (fetchArgs image_path params)

/-! ## `convert_glb_to_obj` (lines 59-69) -/

/-- `convert_glb_to_obj(glb_path, OUTPUT_FOLDER)`: derives the base name,
creates the subdirectory, loads the GLB scene, exports
`{base_name}/{base_name}.obj`.  Returns the exported path, or the exception,
together with the filesystem as left behind (a failure after `os.makedirs`
leaves the directory in place). -/
def convert_glb_to_obj (load : String → Except String Unit) (now : Nat)
    (glb_path : String) (fs : ServerFS) : Except String String × ServerFS :=
  let base_name := splitextRoot (pathBasename glb_path)
  match mkOutDir fs base_name now with
  | .error e => (.error e, fs)
  | .ok fs1 =>
    match load glb_path with
    | .error e => (.error e, fs1)
    | .ok _ =>
      let obj_path := pathJoin (pathJoin OUTPUT_FOLDER base_name) (base_name ++ ".obj")
      (.ok obj_path, putInDir fs1 base_name (base_name ++ ".obj"))

/-! ## Requests and responses of the generate endpoints -/

/-- An entry of `request.files`. -/
structure UploadedFile where
  filename : String
deriving DecidableEq, Repr

/-- A `POST /api/generate` request: the multipart files and the form fields. -/
structure UploadRequest where
  files : List (String × UploadedFile)
  form : List (String × String)
deriving DecidableEq, Repr

/-- The JSON success body `{job_id, status, glb_url, obj_url?}`. -/
structure SuccessBody where
  job_id : String
  status : String
  glb_url : String
  obj_url : Option String
deriving DecidableEq, Repr

/-- What a generate endpoint sends back: a 400 `{error}`, a 200 success body,
a 500 `{error, message, fallback_url?}`, or an exception escaping the
handler (which Flask turns into a generic 500, not the JSON error shape). -/
inductive GenResult where
  | clientError (msg : String)
  | success (job_id status glb_url : String) (obj_url : Option String)
  | serverError (error message : String) (fallback_url : Option String)
  | raised (msg : String)
deriving DecidableEq, Repr

/-- State at the end of the `try` suite: the pending return value or the
caught exception, the filesystem, the binding of the Python local
`image_path` (`Option.none` = never assigned), and the observed external
calls. -/
structure TryOut where
  pending : Except String SuccessBody
  fs : ServerFS
  image_path : Option String
  remoteCalls : List RemoteArgs
  convertCalls : List (String × String)
deriving Repr

/-- The outcome of one generate request: HTTP result, final filesystem, the
name the input image was staged under in the upload folder (if staging
happened), and the observed external calls. -/
structure GenOutcome where
  result : GenResult
  fs : ServerFS
  staged : Option String
  remoteCalls : List RemoteArgs
  convertCalls : List (String × String)
deriving Repr

/-! ## Parameter parsing -/

/-- The `params` dict of the upload handler (lines 124-130): form fields
coerced with `int()` / `float()` / `.lower() == "true"`, with the defaults
written at the call sites.  A failing coercion raises inside the `try`. -/
def uploadParams (form : List (String × String)) :
    Except String (List (String × PyVal)) :=
  match pyInt (form_get form "steps" (.int 30)) with
  | .error e => .error e
  | .ok steps =>
    match pyFloat (form_get form "guidance_scale" (.int 5)) with
    | .error e => .error e
    | .ok gs =>
      match pyInt (form_get form "seed" (.int 1234)) with
      | .error e => .error e
      | .ok seed =>
        .ok [("steps", .int steps),
             ("guidance_scale", gs),
             ("seed", .int seed),
             ("remove_background", .bool (pyLowerStr (form_get_str form "remove_background" "true") == "true")),
             ("randomize_seed", .bool (pyLowerStr (form_get_str form "randomize_seed" "true") == "true"))]

/-- The `params` dict of the URL handler (lines 200-206): JSON values are
passed through `data.get(key, default)` with no coercion. -/
def urlParams (data : List (String × PyVal)) : List (String × PyVal) :=
  [("steps", dict_get data "steps" (.int 30)),
   ("guidance_scale", dict_get data "guidance_scale" (.int 5)),
   ("seed", dict_get data "seed" (.int 1234)),
   ("remove_background", dict_get data "remove_background" (.bool true)),
   ("randomize_seed", dict_get data "randomize_seed" (.bool true))]

/-! ## The shared generation tail

Lines 133-152 of the upload handler and lines 209-227 of the URL handler are
the same code: call the remote model, copy the GLB into the output folder,
convert to OBJ when requested, and build the response. -/

def finishGeneration (o : Oracles) (job_id : String) (now : Nat)
    (params : List (String × PyVal)) (output_format : String)
    (image_name : String) (fs : ServerFS) : TryOut :=
  let args := fetchArgs (pathJoin UPLOAD_FOLDER image_name) params
  match o.remote args with
  | .error e => ⟨.error e, fs, some image_name, [args], []⟩
  | .ok _glb_path =>
    match putOutFile fs (job_id ++ ".glb") now with
    | .error e => ⟨.error e, fs, some image_name, [args], []⟩
    | .ok fs2 =>
      let output_glb_path := pathJoin OUTPUT_FOLDER (job_id ++ ".glb")
      let base : SuccessBody :=
        ⟨job_id, "completed", "/api/download/" ++ job_id ++ "/glb", Option.none⟩
      if output_format = "obj" then
        match convert_glb_to_obj o.trimesh_load now output_glb_path fs2 with
        | (.error e, fs3) =>
          ⟨.error e, fs3, some image_name, [args], [(output_glb_path, OUTPUT_FOLDER)]⟩
        | (.ok _obj_path, fs3) =>
          ⟨.ok { base with obj_url := some ("/api/download/" ++ job_id ++ "/obj") },
           fs3, some image_name, [args], [(output_glb_path, OUTPUT_FOLDER)]⟩
      else ⟨.ok base, fs2, some image_name, [args], []⟩

/-! ## `POST /api/generate` (`generate_3d_model`, lines 82-164) -/

/-- The `try` suite of the upload handler: parse `params` (coercions may
raise), read `output_format`, then the shared generation tail.  The staged
file name is bound to `image_path` before the `try` begins. -/
def upload_try_body (o : Oracles) (job_id : String) (now : Nat)
    (form : List (String × String)) (image_name : String) (fs : ServerFS) :
    TryOut :=
  match uploadParams form with
  | .error e => ⟨.error e, fs, some image_name, [], []⟩
  | .ok params =>
    let output_format := pyLowerStr (form_get_str form "output_format" "glb")
    finishGeneration o job_id now params output_format image_name fs

/-- The upload handler: validation (file part present, filename non-empty,
`allowed_file`), staging under `{job_id}_{secure_filename}`, the `try`
suite, the `except` shaping a 500, and the `finally` removing the staged
file when it exists. -/
def generate_3d_model (o : Oracles) (job_id : String) (now : Nat)
    (req : UploadRequest) (fs : ServerFS) : GenOutcome :=
  match req.files.lookup "file" with
  | Option.none => ⟨.clientError "No file provided", fs, Option.none, [], []⟩
  | some file =>
    if file.filename = "" then
      ⟨.clientError "No file selected", fs, Option.none, [], []⟩
    else if allowed_file file.filename = false then
      ⟨.clientError "File type not allowed. Allowed: png, jpg, jpeg, webp",
       fs, Option.none, [], []⟩
    else
      let unique_filename := job_id ++ "_" ++ secure_filename file.filename
      let st := upload_try_body o job_id now req.form unique_filename
        (saveUpload fs unique_filename)
      let fsF := if uploadExists st.fs unique_filename then
        removeUpload st.fs unique_filename else st.fs
      { result :=
          match st.pending with
          | .ok b => .success b.job_id b.status b.glb_url b.obj_url
          | .error e => .serverError e
              "Generation failed. The Hugging Face Space may be overloaded."
              (some "https://huggingface.co/spaces/tencent/Hunyuan3D-2.1")
        fs := fsF
        staged := some unique_filename
        remoteCalls := st.remoteCalls
        convertCalls := st.convertCalls }

/-! ## `POST /api/generate/url` (`generate_from_url`, lines 167-237) -/

/-- `image_url.split(".")[-1].split("?")[0][:4]` (line 191). Only a string
has `.split` (`AttributeError` otherwise). -/
def extFromUrl (image_url : PyVal) : Except String String :=
  match image_url with
  | .str u =>
    .ok (String.mk ((splitOnCharL '?' ((splitOnCharL '.' u.data).getLastD [])).headD [] |>.take 4))
  | _ => .error "AttributeError: split"

/-- The `try` suite of the URL handler: download the image, infer the staging
extension, stage the bytes, build `params` (no coercion), read
`output_format` (`.lower()` on the raw JSON value), then the shared tail.
`image_path` remains unassigned if the download or the extension inference
raises. -/
def url_try_body (o : Oracles) (job_id : String) (now : Nat)
    (data : List (String × PyVal)) (image_url : PyVal) (fs : ServerFS) :
    TryOut :=
  match o.http_get image_url with
  | .error e => ⟨.error e, fs, Option.none, [], []⟩
  | .ok _ =>
    match extFromUrl image_url with
    | .error e => ⟨.error e, fs, Option.none, [], []⟩
    | .ok rawExt =>
      let ext := if ALLOWED_EXTENSIONS.contains rawExt then rawExt else "jpg"
      let image_name := job_id ++ "." ++ ext
      let fs1 := saveUpload fs image_name
      let params := urlParams data
      match pyLower (dict_get data "output_format" (.str "glb")) with
      | .error e => ⟨.error e, fs1, some image_name, [], []⟩
      | .ok output_format =>
        finishGeneration o job_id now params output_format image_name fs1

/-- The URL handler: requires `image_url` in the JSON body, runs the `try`
suite, shapes a 500 on a caught exception — but the `finally` block reads
the local `image_path`, which is unbound when the download failed before
staging, so that path raises `UnboundLocalError` and discards the pending
response. -/
def generate_from_url (o : Oracles) (job_id : String) (now : Nat)
    (body : Option (List (String × PyVal))) (fs : ServerFS) : GenOutcome :=
  match body with
  | Option.none => ⟨.clientError "image_url is required", fs, Option.none, [], []⟩
  | some data =>
    match data.lookup "image_url" with
    | Option.none => ⟨.clientError "image_url is required", fs, Option.none, [], []⟩
    | some image_url =>
      let st := url_try_body o job_id now data image_url fs
      match st.image_path with
      | Option.none =>
        ⟨.raised "UnboundLocalError: image_path", st.fs, Option.none,
         st.remoteCalls, st.convertCalls⟩
      | some image_name =>
        let fsF := if uploadExists st.fs image_name then
          removeUpload st.fs image_name else st.fs
        { result :=
            match st.pending with
            | .ok b => .success b.job_id b.status b.glb_url b.obj_url
            | .error e => .serverError e "Generation failed" Option.none
          fs := fsF
          staged := some image_name
          remoteCalls := st.remoteCalls
          convertCalls := st.convertCalls }

/-! ## `GET /api/download/<job_id>/<format>` (`download_model`, lines 240-261) -/

/-- What the download endpoint produces: a file sent as an attachment
(`send_file(path, as_attachment=True, download_name=...)`), a 404
`{error: "File not found"}`, or an exception escaping the handler. -/
inductive DownloadResp where
  | file (path : String) (download_name : String)
  | notFound
  | raised (msg : String)
deriving DecidableEq, Repr

/-- `download_model(job_id, format)`: for `glb`, send
`OUTPUT_FOLDER/{job_id}.glb` when that path exists (`send_file` raising
`IsADirectoryError` if the path is a directory); for `obj`, when
`OUTPUT_FOLDER/{job_id}` exists, send the first `.obj` file of its listing
(`os.listdir` raising `NotADirectoryError` if the path is a regular file);
404 in every other case. -/
def download_model (fs : ServerFS) (job_id format : String) : DownloadResp :=
  if format = "glb" then
    if outExists fs (job_id ++ ".glb") then
      if (fs.outFiles.lookup (job_id ++ ".glb")).isSome then
        .file (pathJoin OUTPUT_FOLDER (job_id ++ ".glb")) (job_id ++ ".glb")
      else .raised "IsADirectoryError"
    else .notFound
  else if format = "obj" then
    if outExists fs job_id then
      match fs.outDirs.find? (·.name == job_id) with
      | some d =>
        match d.files.find? (fun f => pyEndsWith f ".obj") with
        | some f => .file (pathJoin (pathJoin OUTPUT_FOLDER job_id) f) (job_id ++ ".obj")
        | Option.none => .notFound
      | Option.none => .raised "NotADirectoryError"
    else .notFound
  else .notFound

/-! ## `GET /api/models` (`list_models`, lines 264-281) -/

/-- One entry of the models listing. -/
structure ModelEntry where
  job_id : String
  glb_url : String
  created_at : Nat
deriving DecidableEq, Repr

/-- Stable insertion of an entry into a list sorted by `created_at`
descending: the new entry goes after every entry with a strictly larger or
equal timestamp, as `sorted(..., reverse=True)` (a stable sort) places it. -/
def insertByCtimeDesc (x : ModelEntry) : List ModelEntry → List ModelEntry
  | [] => [x]
  | y :: ys =>
    if y.created_at < x.created_at then x :: y :: ys
    else y :: insertByCtimeDesc x ys

/-- `sorted(models, key=lambda x: x["created_at"], reverse=True)`: a stable
sort by creation time, newest first. -/
def sortByCtimeDesc : List ModelEntry → List ModelEntry
  | [] => []
  | x :: xs => insertByCtimeDesc x (sortByCtimeDesc xs)

/-- `list_models()`: one entry per name ending in `.glb` in the output
listing, with `job_id = f.replace(".glb", "")`, a download URL, and the
filesystem creation time; the body is the sorted list plus
`total = len(models)`. -/
def list_models (fs : ServerFS) : List ModelEntry × Nat :=
  let models := ((listdirOutput fs).filter (fun f => pyEndsWith f ".glb")).map
    (fun f =>
      let jid := pyReplaceGlb f
      { job_id := jid
        glb_url := "/api/download/" ++ jid ++ "/glb"
        created_at := getctimeOutput fs f })
  (sortByCtimeDesc models, models.length)

/-! ## Claim-language predicates and concrete fixtures -/

/-- The specification's upload-validity condition: a non-empty filename whose
extension — the text after the last dot, lowercased — is one of
png/jpg/jpeg/webp. -/
def claimValidFile (filename : String) : Prop :=
  filename ≠ "" ∧ '.' ∈ filename.data ∧
    pyLowerStr (lastDotSuffix filename) ∈ ALLOWED_EXTENSIONS

instance (filename : String) : Decidable (claimValidFile filename) := by
  unfold claimValidFile; infer_instance

/-- The shape of every job identifier the server allocates (`uuid.uuid4()`
renders as hex digits and dashes): non-empty, no dot, no path separator. -/
def goodJobId (job_id : String) : Prop :=
  job_id.data ≠ [] ∧ '.' ∉ job_id.data ∧ '/' ∉ job_id.data

instance (job_id : String) : Decidable (goodJobId job_id) := by
  unfold goodJobId; infer_instance

/-- External calls that all succeed, for concrete runs. -/
def oracleOk : Oracles :=
  ⟨fun _ => .ok "/tmp/gradio/result.glb", fun _ => .ok (), fun _ => .ok ()⟩

/-- External calls where the image download fails (non-existent host). -/
def oracleDownFail : Oracles :=
  { oracleOk with http_get := fun _ => .error "ConnectionError: failed to resolve host" }

/-- An empty server filesystem. -/
def fsEmpty : ServerFS := ⟨[], [], []⟩

/-- An output folder holding two GLB artifacts with creation times 1 < 2. -/
def fsTwoGlbs : ServerFS := ⟨[], [("a.glb", 1), ("b.glb", 2)], []⟩

/-! # Theorems

## Helper lemmas on the string utilities -/

theorem splitOnCharL_ne_nil (c : Char) (l : List Char) : splitOnCharL c l ≠ [] := by
  induction l with
  | nil => simp [splitOnCharL]
  | cons x xs ih =>
    simp only [splitOnCharL]
    split
    · simp
    · match h : splitOnCharL c xs with
      | [] => exact absurd h ih
      | g :: gs => simp

theorem splitOnCharL_no_sep (c : Char) (l : List Char) (h : c ∉ l) :
    splitOnCharL c l = [l] := by
  induction l with
  | nil => rfl
  | cons x xs ih =>
    simp only [List.mem_cons, not_or] at h
    unfold splitOnCharL
    rw [if_neg (fun hx : x = c => h.1 hx.symm), ih h.2]

theorem splitOnCharL_append_cons (c : Char) (l₁ l₂ : List Char) (h : c ∉ l₁) :
    splitOnCharL c (l₁ ++ c :: l₂) = l₁ :: splitOnCharL c l₂ := by
  induction l₁ with
  | nil => simp [splitOnCharL]
  | cons x xs ih =>
    simp only [List.mem_cons, not_or] at h
    have step : splitOnCharL c ((x :: xs) ++ c :: l₂) =
        match splitOnCharL c (xs ++ c :: l₂) with
        | [] => [[x]]
        | g :: gs => (x :: g) :: gs := by
      simp only [List.cons_append, splitOnCharL, if_neg (fun hx : x = c => h.1 hx.symm)]
      rfl
    rw [step, ih h.2]

theorem intercalate_singleton (sep : List Char) (l : List Char) :
    List.intercalate sep [l] = l := by
  simp [List.intercalate]

/-- For a well-shaped job id, the base name the converter derives from the
copied GLB's path is the job id itself. -/
theorem splitextRoot_basename_glb (job_id : String) (h : goodJobId job_id) :
    splitextRoot (pathBasename (pathJoin OUTPUT_FOLDER (job_id ++ ".glb"))) = job_id := by
  obtain ⟨hne, hdot, hslash⟩ := h
  have hdata : (pathJoin OUTPUT_FOLDER (job_id ++ ".glb")).data =
      "output".data ++ '/' :: (job_id.data ++ '.' :: "glb".data) := by
    simp [pathJoin, OUTPUT_FOLDER, String.data_append]
  have hbase : pathBasename (pathJoin OUTPUT_FOLDER (job_id ++ ".glb")) =
      String.mk (job_id.data ++ '.' :: "glb".data) := by
    unfold pathBasename
    rw [hdata, splitOnCharL_append_cons _ _ _ (by decide),
      splitOnCharL_no_sep _ _ (by
        simp only [List.mem_append, List.mem_cons]
        rintro (h1 | h2 | h3)
        · exact hslash h1
        · exact absurd h2 (by decide)
        · revert h3; decide)]
    rfl
  rw [hbase]
  unfold splitextRoot splitextRootL
  obtain ⟨c, j', hj⟩ := List.exists_cons_of_ne_nil hne
  have hc : ¬(c = '.') := fun hcc => hdot (by rw [hj, hcc]; exact List.mem_cons_self ..)
  have hmk : (String.mk (job_id.data ++ '.' :: "glb".data)).data =
      job_id.data ++ '.' :: "glb".data := rfl
  rw [hmk, hj]
  simp only [List.cons_append, List.takeWhile_cons, decide_eq_true_eq, if_neg hc,
    List.length_nil, List.drop_zero]
  rw [if_pos (by simp)]
  rw [show (c :: (j' ++ '.' :: "glb".data)) = (c :: j') ++ '.' :: "glb".data from rfl]
  rw [splitOnCharL_append_cons _ _ _ (hj ▸ hdot),
    splitOnCharL_no_sep _ _ (by decide)]
  simp only [List.dropLast, intercalate_singleton, List.nil_append]
  rw [← hj]

/-! ## Helper lemmas on the filesystem operations -/

theorem uploadExists_removeUpload (fs : ServerFS) (n : String) :
    uploadExists (removeUpload fs n) n = false := by
  simp [uploadExists, removeUpload]

/-- The `finally` step leaves the staged name absent from the upload folder. -/
theorem uploadExists_after_finally (fs : ServerFS) (n : String) :
    uploadExists (if uploadExists fs n then removeUpload fs n else fs) n = false := by
  cases hb : uploadExists fs n with
  | true => simp [uploadExists_removeUpload]
  | false => simp [hb]

theorem outDirs_after_finally (fs : ServerFS) (n : String) (c : Bool) :
    ((if c = true then removeUpload fs n else fs).outDirs) = fs.outDirs := by
  cases c <;> simp [removeUpload]

/-- The code's extension test, phrased as the specification phrases it. -/
theorem allowed_file_iff (filename : String) :
    allowed_file filename = true ↔
      '.' ∈ filename.data ∧ pyLowerStr (lastDotSuffix filename) ∈ ALLOWED_EXTENSIONS := by
  simp [allowed_file, List.elem_iff]

/-! ## Behaviour of the shared generation tail -/

theorem finishGeneration_image_path (o : Oracles) (job_id : String) (now : Nat)
    (params : List (String × PyVal)) (output_format image_name : String)
    (fs : ServerFS) :
    (finishGeneration o job_id now params output_format image_name fs).image_path =
      some image_name := by
  dsimp only [finishGeneration]
  rcases o.remote (fetchArgs (pathJoin UPLOAD_FOLDER image_name) params) with e | g
  · rfl
  · dsimp only
    rcases putOutFile fs (job_id ++ ".glb") now with e | fs2
    · rfl
    · dsimp only
      by_cases hf : output_format = "obj"
      · rw [if_pos hf]
        rcases convert_glb_to_obj o.trimesh_load now
          (pathJoin OUTPUT_FOLDER (job_id ++ ".glb")) fs2 with ⟨e | p, fs3⟩ <;> rfl
      · rw [if_neg hf]

theorem finishGeneration_remoteCalls (o : Oracles) (job_id : String) (now : Nat)
    (params : List (String × PyVal)) (output_format image_name : String)
    (fs : ServerFS) :
    (finishGeneration o job_id now params output_format image_name fs).remoteCalls =
      [fetchArgs (pathJoin UPLOAD_FOLDER image_name) params] := by
  dsimp only [finishGeneration]
  rcases o.remote (fetchArgs (pathJoin UPLOAD_FOLDER image_name) params) with e | g
  · rfl
  · dsimp only
    rcases putOutFile fs (job_id ++ ".glb") now with e | fs2
    · rfl
    · dsimp only
      by_cases hf : output_format = "obj"
      · rw [if_pos hf]
        rcases convert_glb_to_obj o.trimesh_load now
          (pathJoin OUTPUT_FOLDER (job_id ++ ".glb")) fs2 with ⟨e | p, fs3⟩ <;> rfl
      · rw [if_neg hf]

/-! ## C2 — staged input cleanup -/

/-- C2: for every generate request (upload or URL variant) that stages an
input image file, after the request completes — success, 400/500 error, or
raise — the staged file no longer exists in the upload folder. -/
theorem generate_cleans_staged_file (o : Oracles) (job_id : String) (now : Nat)
    (req : UploadRequest) (body : Option (List (String × PyVal)))
    (fs : ServerFS) (n : String) :
    ((generate_3d_model o job_id now req fs).staged = some n →
      uploadExists (generate_3d_model o job_id now req fs).fs n = false) ∧
    ((generate_from_url o job_id now body fs).staged = some n →
      uploadExists (generate_from_url o job_id now body fs).fs n = false) := by
  constructor
  · intro h
    cases hf : req.files.lookup "file" with
    | none => simp [generate_3d_model, hf] at h
    | some file =>
      by_cases h1 : file.filename = ""
      · simp [generate_3d_model, hf, h1] at h
      · by_cases h2 : allowed_file file.filename = false
        · simp [generate_3d_model, hf, h1, h2] at h
        · simp only [generate_3d_model, hf, if_neg h1, if_neg h2,
            Option.some.injEq] at h ⊢
          rw [← h]
          exact uploadExists_after_finally ..
  · intro h
    cases body with
    | none => simp [generate_from_url] at h
    | some data =>
      cases hl : data.lookup "image_url" with
      | none => simp [generate_from_url, hl] at h
      | some image_url =>
        cases hip : (url_try_body o job_id now data image_url fs).image_path with
        | none => simp [generate_from_url, hl, hip] at h
        | some name =>
          simp only [generate_from_url, hl, hip, Option.some.injEq] at h ⊢
          rw [← h]
          exact uploadExists_after_finally ..

/-- C2 witness: a concrete successful upload run stages
`job2_cat.png` and ends with it absent from the upload folder. -/
theorem generate_cleans_staged_file_witness :
    (generate_3d_model oracleOk "job2" 5 ⟨[("file", ⟨"cat.png"⟩)], []⟩ fsEmpty).staged =
      some "job2_cat.png" ∧
    uploadExists
      (generate_3d_model oracleOk "job2" 5 ⟨[("file", ⟨"cat.png"⟩)], []⟩ fsEmpty).fs
      "job2_cat.png" = false :=
  ⟨by decide,
   (generate_cleans_staged_file oracleOk "job2" 5 ⟨[("file", ⟨"cat.png"⟩)], []⟩
     Option.none fsEmpty "job2_cat.png").1 (by decide)⟩

/-! ## C1 — upload validation -/

/-- C1: a generate-from-upload request with a missing file part, an empty
filename, or a disallowed extension (text after the last dot, lowercased,
not in png/jpg/jpeg/webp) gets a 400 client error and the remote generation
call is never invoked; otherwise validation passes (no client error, and the
file is staged). -/
theorem upload_validation_spec (o : Oracles) (job_id : String) (now : Nat)
    (req : UploadRequest) (fs : ServerFS) :
    (req.files.lookup "file" = Option.none →
      (∃ msg, (generate_3d_model o job_id now req fs).result = .clientError msg) ∧
      (generate_3d_model o job_id now req fs).remoteCalls = []) ∧
    (∀ f, req.files.lookup "file" = some f → ¬ claimValidFile f.filename →
      (∃ msg, (generate_3d_model o job_id now req fs).result = .clientError msg) ∧
      (generate_3d_model o job_id now req fs).remoteCalls = []) ∧
    (∀ f, req.files.lookup "file" = some f → claimValidFile f.filename →
      (∀ msg, (generate_3d_model o job_id now req fs).result ≠ .clientError msg) ∧
      (generate_3d_model o job_id now req fs).staged.isSome = true) := by
  refine ⟨?_, ?_, ?_⟩
  · intro h
    simp [generate_3d_model, h]
  · intro f hf hnv
    by_cases h1 : f.filename = ""
    · simp [generate_3d_model, hf, h1]
    · have haf : allowed_file f.filename = false := by
        cases ha : allowed_file f.filename with
        | false => rfl
        | true =>
          rcases (allowed_file_iff f.filename).mp ha with ⟨hm1, hm2⟩
          exact absurd ⟨h1, hm1, hm2⟩ hnv
      simp [generate_3d_model, hf, h1, haf]
  · intro f hf hv
    obtain ⟨h1, hdot, hext⟩ := hv
    have hat : allowed_file f.filename = true :=
      (allowed_file_iff f.filename).mpr ⟨hdot, hext⟩
    have h2 : ¬ allowed_file f.filename = false := by simp [hat]
    simp only [generate_3d_model, hf, if_neg h1, if_neg h2]
    constructor
    · intro msg
      cases hp : (upload_try_body o job_id now req.form
          (job_id ++ "_" ++ secure_filename f.filename)
          (saveUpload fs (job_id ++ "_" ++ secure_filename f.filename))).pending <;>
        simp [hp]
    · rfl

/-- C1 witness: a `.gif` upload is rejected with a 400 and no remote call;
the validity predicate is decidably false for `cat.gif`. -/
theorem upload_validation_spec_witness :
    ¬ claimValidFile "cat.gif" ∧
    (∃ msg, (generate_3d_model oracleOk "job1" 5 ⟨[("file", ⟨"cat.gif"⟩)], []⟩
        fsEmpty).result = .clientError msg) ∧
    (generate_3d_model oracleOk "job1" 5 ⟨[("file", ⟨"cat.gif"⟩)], []⟩
        fsEmpty).remoteCalls = [] :=
  ⟨by decide,
   (upload_validation_spec oracleOk "job1" 5 ⟨[("file", ⟨"cat.gif"⟩)], []⟩
      fsEmpty).2.1 ⟨"cat.gif"⟩ rfl (by decide)⟩

/-! ## C3 — URL-variant download failure

When the image download raises before line 195 executes, the Python local
`image_path` is never assigned, so the `finally` block's
`os.path.exists(image_path)` raises `UnboundLocalError`.  The pending JSON
500 response built by the `except` block is discarded: Flask answers with
its generic 500 page, not the documented `{error, message}` body.  No
artifacts are created and the remote model is never called. -/

/-- C3: a generate-from-URL request whose download fails (non-existent host)
escapes the handler with `UnboundLocalError` from the `finally` block — the
JSON-shaped 500 is never delivered — while the filesystem is untouched (no
job artifacts) and no remote call happens. -/
theorem url_download_failure_raises :
    (generate_from_url oracleDownFail "job3" 7
        (some [("image_url", .str "http://nonexistent.invalid/cat.png")])
        fsEmpty).result = .raised "UnboundLocalError: image_path" ∧
    (generate_from_url oracleDownFail "job3" 7
        (some [("image_url", .str "http://nonexistent.invalid/cat.png")])
        fsEmpty).fs = fsEmpty ∧
    (generate_from_url oracleDownFail "job3" 7
        (some [("image_url", .str "http://nonexistent.invalid/cat.png")])
        fsEmpty).remoteCalls = [] := by
  refine ⟨?_, ?_, ?_⟩ <;> decide

/-! ## C4 — download endpoint -/

/-- C4: for `glb`, the GLB file is sent as an attachment when it exists and
404 otherwise (no directory shadowing the name); for `obj`, the job's output
subdirectory is scanned and the first `.obj` file sent, with 404 when the
subdirectory or such a file is absent (no stray regular file of the job's
name). -/
theorem download_model_spec (fs : ServerFS) (job_id : String) :
    ((fs.outFiles.lookup (job_id ++ ".glb")).isSome = true →
      download_model fs job_id "glb" =
        .file (pathJoin OUTPUT_FOLDER (job_id ++ ".glb")) (job_id ++ ".glb")) ∧
    ((fs.outFiles.lookup (job_id ++ ".glb")).isSome = false →
      (fs.outDirs.find? (·.name == job_id ++ ".glb")).isSome = false →
      download_model fs job_id "glb" = .notFound) ∧
    (∀ d, fs.outDirs.find? (·.name == job_id) = some d →
      (∀ f, d.files.find? (fun f => pyEndsWith f ".obj") = some f →
        download_model fs job_id "obj" =
          .file (pathJoin (pathJoin OUTPUT_FOLDER job_id) f) (job_id ++ ".obj")) ∧
      (d.files.find? (fun f => pyEndsWith f ".obj") = Option.none →
        download_model fs job_id "obj" = .notFound)) ∧
    ((fs.outDirs.find? (·.name == job_id)).isSome = false →
      (fs.outFiles.lookup job_id).isSome = false →
      download_model fs job_id "obj" = .notFound) := by
  refine ⟨?_, ?_, ?_, ?_⟩
  · intro h
    simp [download_model, outExists, h]
  · intro h1 h2
    simp [download_model, outExists, h1, h2]
  · intro d hd
    constructor
    · intro f hf
      simp [download_model, outExists, hd, hf]
    · intro hf
      simp [download_model, outExists, hd, hf]
  · intro h1 h2
    simp [download_model, outExists, h1, h2]

/-- C4 witness: on a filesystem with one GLB and one conversion
subdirectory, both the present-GLB case and the missing-job 404 case are
instances of the theorem. -/
theorem download_model_spec_witness :
    download_model ⟨[], [("job4.glb", 3)], [⟨"job4", 3, ["job4.obj"]⟩]⟩ "job4" "glb" =
      .file (pathJoin OUTPUT_FOLDER "job4.glb") "job4.glb" ∧
    download_model ⟨[], [("job4.glb", 3)], [⟨"job4", 3, ["job4.obj"]⟩]⟩ "job4" "obj" =
      .file (pathJoin (pathJoin OUTPUT_FOLDER "job4") "job4.obj") "job4.obj" ∧
    download_model ⟨[], [("job4.glb", 3)], [⟨"job4", 3, ["job4.obj"]⟩]⟩ "missing" "glb" =
      .notFound :=
  ⟨(download_model_spec ⟨[], [("job4.glb", 3)], [⟨"job4", 3, ["job4.obj"]⟩]⟩ "job4").1
     (by decide),
   ((download_model_spec ⟨[], [("job4.glb", 3)], [⟨"job4", 3, ["job4.obj"]⟩]⟩ "job4").2.2.1
     ⟨"job4", 3, ["job4.obj"]⟩ (by decide)).1 "job4.obj" (by decide),
   (download_model_spec ⟨[], [("job4.glb", 3)], [⟨"job4", 3, ["job4.obj"]⟩]⟩ "missing").2.1
     (by decide) (by decide)⟩

/-! ## C5 — model listing -/

theorem insertByCtimeDesc_perm (x : ModelEntry) (l : List ModelEntry) :
    List.Perm (insertByCtimeDesc x l) (x :: l) := by
  induction l with
  | nil => exact List.Perm.refl _
  | cons y ys ih =>
    unfold insertByCtimeDesc
    split
    · exact List.Perm.refl _
    · exact (List.Perm.cons y ih).trans (List.Perm.swap x y ys)

theorem sortByCtimeDesc_perm (l : List ModelEntry) :
    List.Perm (sortByCtimeDesc l) l := by
  induction l with
  | nil => exact List.Perm.refl _
  | cons x xs ih =>
    exact (insertByCtimeDesc_perm x (sortByCtimeDesc xs)).trans (List.Perm.cons x ih)

theorem insertByCtimeDesc_pairwise (x : ModelEntry) (l : List ModelEntry)
    (h : l.Pairwise (fun a b => b.created_at ≤ a.created_at)) :
    (insertByCtimeDesc x l).Pairwise (fun a b => b.created_at ≤ a.created_at) := by
  induction l with
  | nil => simp [insertByCtimeDesc]
  | cons y ys ih =>
    rw [List.pairwise_cons] at h
    unfold insertByCtimeDesc
    split
    · rename_i hlt
      rw [List.pairwise_cons]
      refine ⟨?_, List.pairwise_cons.mpr h⟩
      intro z hz
      rcases List.mem_cons.mp hz with rfl | hz'
      · exact Nat.le_of_lt hlt
      · exact Nat.le_trans (h.1 z hz') (Nat.le_of_lt hlt)
    · rename_i hnlt
      rw [List.pairwise_cons]
      refine ⟨?_, ih h.2⟩
      intro z hz
      rcases List.mem_cons.mp ((insertByCtimeDesc_perm x ys).mem_iff.mp hz) with rfl | hz'
      · exact Nat.le_of_not_lt hnlt
      · exact h.1 z hz'

theorem sortByCtimeDesc_pairwise (l : List ModelEntry) :
    (sortByCtimeDesc l).Pairwise (fun a b => b.created_at ≤ a.created_at) := by
  induction l with
  | nil => simp [sortByCtimeDesc]
  | cons x xs ih => exact insertByCtimeDesc_pairwise x (sortByCtimeDesc xs) ih

/-- C5: the models listing has one entry per `.glb` name in the output area
(job id derived from the filename, creation time from filesystem metadata),
the total equals the number of such entries, and the list is sorted by
creation time descending: an entry with a strictly larger creation time
appears strictly earlier. -/
theorem list_models_spec (fs : ServerFS) :
    List.Perm (list_models fs).1
      (((listdirOutput fs).filter (fun f => pyEndsWith f ".glb")).map
        (fun f => { job_id := pyReplaceGlb f
                    glb_url := "/api/download/" ++ pyReplaceGlb f ++ "/glb"
                    created_at := getctimeOutput fs f })) ∧
    (list_models fs).2 =
      (((listdirOutput fs).filter (fun f => pyEndsWith f ".glb")).map
        (fun f => ({ job_id := pyReplaceGlb f
                     glb_url := "/api/download/" ++ pyReplaceGlb f ++ "/glb"
                     created_at := getctimeOutput fs f } : ModelEntry))).length ∧
    ∀ (i j : Nat) (hi : i < (list_models fs).1.length)
      (hj : j < (list_models fs).1.length),
      ((list_models fs).1[i].created_at < (list_models fs).1[j].created_at) → j < i := by
  refine ⟨sortByCtimeDesc_perm _, by simp [list_models], ?_⟩
  intro i j hi hj hlt
  have hp := List.pairwise_iff_getElem.mp (sortByCtimeDesc_pairwise
    (((listdirOutput fs).filter (fun f => pyEndsWith f ".glb")).map
      (fun f => { job_id := pyReplaceGlb f
                  glb_url := "/api/download/" ++ pyReplaceGlb f ++ "/glb"
                  created_at := getctimeOutput fs f })))
  rcases Nat.lt_trichotomy i j with hij | hij | hij
  · exact absurd hlt (Nat.not_lt.mpr (hp i j hi hj hij))
  · exact absurd hlt (hij ▸ Nat.lt_irrefl _)
  · exact hij

/-- C5 witness: with two GLBs of creation times 1 < 2, the entry with time 2
is listed first; instantiating the ordering conjunct at the two positions. -/
theorem list_models_spec_witness :
    ((list_models fsTwoGlbs).1.get ⟨1, by decide⟩).created_at <
      ((list_models fsTwoGlbs).1.get ⟨0, by decide⟩).created_at ∧ (0 : Nat) < 1 :=
  ⟨by decide, (list_models_spec fsTwoGlbs).2.2 1 0 (by decide) (by decide) (by decide)⟩

/-! ## C7 — parameter defaults and coercion -/

/-- C7: the upload path coerces `steps`/`seed` with `int()`,
`guidance_scale` with `float()`, and the two flags with
`.lower() == "true"`, defaulting to 30, 1234, 5, true, true; the URL path
reads the same names from the JSON body with the same defaults and passes
the values through uncoerced. -/
theorem params_coercion_spec (form : List (String × String))
    (data : List (String × PyVal)) :
    (form.lookup "steps" = Option.none → form.lookup "guidance_scale" = Option.none →
     form.lookup "seed" = Option.none → form.lookup "remove_background" = Option.none →
     form.lookup "randomize_seed" = Option.none →
      uploadParams form = .ok [("steps", .int 30), ("guidance_scale", .float 5 0),
        ("seed", .int 1234), ("remove_background", .bool true),
        ("randomize_seed", .bool true)]) ∧
    (∀ ps, uploadParams form = .ok ps →
      ∃ n g m b₁ b₂,
        ps = [("steps", PyVal.int n), ("guidance_scale", g), ("seed", PyVal.int m),
              ("remove_background", PyVal.bool b₁), ("randomize_seed", PyVal.bool b₂)] ∧
        pyInt (form_get form "steps" (.int 30)) = .ok n ∧
        pyFloat (form_get form "guidance_scale" (.int 5)) = .ok g ∧
        pyInt (form_get form "seed" (.int 1234)) = .ok m ∧
        b₁ = (pyLowerStr (form_get_str form "remove_background" "true") == "true") ∧
        b₂ = (pyLowerStr (form_get_str form "randomize_seed" "true") == "true")) ∧
    (∀ v, form.lookup "steps" = some v →
      pyInt (form_get form "steps" (.int 30)) = pyIntOfString v) ∧
    (∀ v, form.lookup "guidance_scale" = some v →
      pyFloat (form_get form "guidance_scale" (.int 5)) = pyFloatOfString v) ∧
    (∀ v, form.lookup "remove_background" = some v →
      form_get_str form "remove_background" "true" = v) ∧
    (∀ (k : String) (v : PyVal), data.lookup k = some v →
      dict_get data k (.int 30) = v ∧ dict_get data k (.int 5) = v ∧
      dict_get data k (.int 1234) = v ∧ dict_get data k (.bool true) = v) ∧
    (∀ (k : String) (dflt : PyVal), data.lookup k = Option.none →
      dict_get data k dflt = dflt) ∧
    urlParams data = [("steps", dict_get data "steps" (.int 30)),
      ("guidance_scale", dict_get data "guidance_scale" (.int 5)),
      ("seed", dict_get data "seed" (.int 1234)),
      ("remove_background", dict_get data "remove_background" (.bool true)),
      ("randomize_seed", dict_get data "randomize_seed" (.bool true))] := by
  refine ⟨?_, ?_, ?_, ?_, ?_, ?_, ?_, rfl⟩
  · intro h1 h2 h3 h4 h5
    simp only [uploadParams, form_get, form_get_str, h1, h2, h3, h4, h5,
      Option.getD_none]
    rfl
  · intro ps hps
    unfold uploadParams at hps
    split at hps
    · exact Except.noConfusion hps
    · rename_i steps hsteps
      split at hps
      · exact Except.noConfusion hps
      · rename_i g hg
        split at hps
        · exact Except.noConfusion hps
        · rename_i m hm
          exact ⟨steps, g, m, _, _, (Except.ok.inj hps).symm, hsteps, hg, hm, rfl, rfl⟩
  · intro v h
    simp [form_get, h, pyInt]
  · intro v h
    simp [form_get, h, pyFloat]
  · intro v h
    simp [form_get_str, h]
  · intro k v h
    refine ⟨?_, ?_, ?_, ?_⟩ <;> simp [dict_get, h]
  · intro k dflt h
    simp [dict_get, h]

/-- C7 witness: the empty form yields exactly the default parameter bag. -/
theorem params_coercion_spec_witness :
    uploadParams [] = .ok [("steps", .int 30), ("guidance_scale", .float 5 0),
      ("seed", .int 1234), ("remove_background", .bool true),
      ("randomize_seed", .bool true)] :=
  (params_coercion_spec [] []).1 rfl rfl rfl rfl rfl

/-! ## C8 — `octree_resolution` and `num_chunks`

The upload handler's `params` dict (lines 124-130) never contains the keys
`octree_resolution` or `num_chunks`, so `fetch_3d_from_image`'s
`params.get(...)` always falls back to 256 and 8000 — a form value for
either key is ignored on the upload path too, contrary to the claim. -/

theorem uploadParams_no_octree (form : List (String × String))
    (ps : List (String × PyVal)) (h : uploadParams form = .ok ps) :
    ps.lookup "octree_resolution" = Option.none ∧
    ps.lookup "num_chunks" = Option.none := by
  unfold uploadParams at h
  split at h
  · exact Except.noConfusion h
  · split at h
    · exact Except.noConfusion h
    · split at h
      · exact Except.noConfusion h
      · have hps := Except.ok.inj h
        subst hps
        exact ⟨rfl, rfl⟩

theorem urlParams_no_octree (data : List (String × PyVal)) :
    (urlParams data).lookup "octree_resolution" = Option.none ∧
    (urlParams data).lookup "num_chunks" = Option.none :=
  ⟨rfl, rfl⟩

theorem fetchArgs_octree_defaults (image_path : String)
    (params : List (String × PyVal))
    (h1 : params.lookup "octree_resolution" = Option.none)
    (h2 : params.lookup "num_chunks" = Option.none) :
    (fetchArgs image_path params).octree_resolution = .int 256 ∧
    (fetchArgs image_path params).num_chunks = .int 8000 := by
  simp [fetchArgs, dict_get, h1, h2]

/-- C8 counterexample: an upload request supplying
`octree_resolution=512` and `num_chunks=42` in its form fields still makes
the remote call with 256 and 8000 — the supplied values are not forwarded,
so the parameters are not exposed on the upload path either. -/
theorem octree_forwarding_counterexample :
    (([("octree_resolution", "512"), ("num_chunks", "42")] :
        List (String × String)).lookup "octree_resolution" = some "512") ∧
    (generate_3d_model oracleOk "job8" 5
        ⟨[("file", ⟨"cat.png"⟩)],
         [("octree_resolution", "512"), ("num_chunks", "42")]⟩
        fsEmpty).remoteCalls.map
        (fun a => (a.octree_resolution, a.num_chunks)) = [(.int 256, .int 8000)] := by
  constructor <;> decide

/-- C8 (amended): neither path exposes `octree_resolution` or `num_chunks`;
every remote generation call carries the fixed defaults 256 and 8000
regardless of the supplied form fields or JSON body. -/
theorem octree_num_chunks_fixed (o : Oracles) (job_id : String) (now : Nat)
    (req : UploadRequest) (body : Option (List (String × PyVal)))
    (fs : ServerFS) :
    (∀ a ∈ (generate_3d_model o job_id now req fs).remoteCalls,
      a.octree_resolution = .int 256 ∧ a.num_chunks = .int 8000) ∧
    (∀ a ∈ (generate_from_url o job_id now body fs).remoteCalls,
      a.octree_resolution = .int 256 ∧ a.num_chunks = .int 8000) := by
  constructor
  · intro a ha
    cases hf : req.files.lookup "file" with
    | none => simp [generate_3d_model, hf] at ha
    | some file =>
      by_cases h1 : file.filename = ""
      · simp [generate_3d_model, hf, h1] at ha
      · by_cases h2 : allowed_file file.filename = false
        · simp [generate_3d_model, hf, h1, h2] at ha
        · simp only [generate_3d_model, hf, if_neg h1, if_neg h2] at ha
          revert ha
          unfold upload_try_body
          split
          · intro ha; simp at ha
          · rename_i params hparams
            rw [finishGeneration_remoteCalls]
            intro ha
            rcases List.mem_singleton.mp ha with rfl
            exact fetchArgs_octree_defaults _ _
              (uploadParams_no_octree _ _ hparams).1
              (uploadParams_no_octree _ _ hparams).2
  · intro a ha
    cases body with
    | none => simp [generate_from_url] at ha
    | some data =>
      cases hl : data.lookup "image_url" with
      | none => simp [generate_from_url, hl] at ha
      | some image_url =>
        have hst : ∀ b ∈ (url_try_body o job_id now data image_url fs).remoteCalls,
            b.octree_resolution = .int 256 ∧ b.num_chunks = .int 8000 := by
          unfold url_try_body
          split
          · intro b hb; simp at hb
          · split
            · intro b hb; simp at hb
            · split <;>
                (dsimp only
                 split
                 · intro b hb; simp at hb
                 · rw [finishGeneration_remoteCalls]
                   intro b hb
                   rcases List.mem_singleton.mp hb with rfl
                   exact fetchArgs_octree_defaults _ _
                     (urlParams_no_octree data).1 (urlParams_no_octree data).2)
        cases hip : (url_try_body o job_id now data image_url fs).image_path with
        | none =>
          simp only [generate_from_url, hl, hip] at ha
          exact hst a ha
        | some name =>
          simp only [generate_from_url, hl, hip] at ha
          exact hst a ha

/-- C8 (amended) witness: the counterexample request's single remote call,
checked through the amended theorem. -/
theorem octree_num_chunks_fixed_witness :
    ∀ a ∈ (generate_3d_model oracleOk "job8" 5
        ⟨[("file", ⟨"cat.png"⟩)],
         [("octree_resolution", "512"), ("num_chunks", "42")]⟩
        fsEmpty).remoteCalls,
      a.octree_resolution = .int 256 ∧ a.num_chunks = .int 8000 :=
  (octree_num_chunks_fixed oracleOk "job8" 5
    ⟨[("file", ⟨"cat.png"⟩)],
     [("octree_resolution", "512"), ("num_chunks", "42")]⟩
    Option.none fsEmpty).1

/-! ## C9 — URL-path extension inference -/

/-- C9: on the URL path (with a successful download), the staging extension
is the one inferred from the URL when that inference lands in the allowed
set, and `jpg` otherwise; the image is staged as `{job_id}.{ext}` in the
upload area. -/
theorem url_ext_inference (o : Oracles) (job_id : String) (now : Nat)
    (data : List (String × PyVal)) (u : String) (fs : ServerFS) (rawExt : String)
    (hurl : data.lookup "image_url" = some (.str u))
    (hget : o.http_get (.str u) = .ok ())
    (hext : extFromUrl (.str u) = .ok rawExt) :
    (generate_from_url o job_id now (some data) fs).staged =
      some (job_id ++ "." ++
        (if ALLOWED_EXTENSIONS.contains rawExt then rawExt else "jpg")) ∧
    (ALLOWED_EXTENSIONS.contains rawExt = true →
      (generate_from_url o job_id now (some data) fs).staged =
        some (job_id ++ "." ++ rawExt)) ∧
    (ALLOWED_EXTENSIONS.contains rawExt = false →
      (generate_from_url o job_id now (some data) fs).staged =
        some (job_id ++ "." ++ "jpg")) := by
  have hst : (url_try_body o job_id now data (.str u) fs).image_path =
      some (job_id ++ "." ++
        (if ALLOWED_EXTENSIONS.contains rawExt then rawExt else "jpg")) := by
    unfold url_try_body
    simp only [hget, hext]
    cases hpl : pyLower (dict_get data "output_format" (.str "glb")) with
    | error e => simp [hpl]
    | ok fmt => simp [hpl, finishGeneration_image_path]
  have hgen : (generate_from_url o job_id now (some data) fs).staged =
      some (job_id ++ "." ++
        (if ALLOWED_EXTENSIONS.contains rawExt then rawExt else "jpg")) := by
    simp only [generate_from_url, hurl, hst]
  refine ⟨hgen, fun hc => ?_, fun hc => ?_⟩
  · rw [hgen, if_pos hc]
  · rw [hgen, if_neg (by rw [hc]; simp)]

/-- C9 witness: downloading `http://h.co/cat.png` stages `job9.png` (the
inferred extension `png` is allowed). -/
theorem url_ext_inference_witness :
    ALLOWED_EXTENSIONS.contains "png" = true ∧
    (generate_from_url oracleOk "job9" 5
        (some [("image_url", .str "http://h.co/cat.png")]) fsEmpty).staged =
      some ("job9" ++ "." ++ "png") :=
  ⟨by decide,
   (url_ext_inference oracleOk "job9" 5 [("image_url", .str "http://h.co/cat.png")]
      "http://h.co/cat.png" fsEmpty "png" rfl rfl rfl).2.1 (by decide)⟩

/-! ## C10 — unrecognized `output_format` values -/

theorem finishGeneration_not_obj (o : Oracles) (job_id : String) (now : Nat)
    (params : List (String × PyVal)) (output_format image_name : String)
    (fs : ServerFS) (hfmt : output_format ≠ "obj") :
    (finishGeneration o job_id now params output_format image_name fs).convertCalls = [] ∧
    ∀ b, (finishGeneration o job_id now params output_format image_name fs).pending =
        .ok b → b.obj_url = Option.none := by
  dsimp only [finishGeneration]
  rcases o.remote (fetchArgs (pathJoin UPLOAD_FOLDER image_name) params) with e | g
  · exact ⟨rfl, fun b hb => Except.noConfusion hb⟩
  · dsimp only
    rcases putOutFile fs (job_id ++ ".glb") now with e | fs2
    · exact ⟨rfl, fun b hb => Except.noConfusion hb⟩
    · dsimp only
      rw [if_neg hfmt]
      exact ⟨rfl, fun b hb => by rw [← Except.ok.inj hb]⟩

theorem upload_try_body_not_obj (o : Oracles) (job_id : String) (now : Nat)
    (form : List (String × String)) (image_name : String) (fs : ServerFS)
    (hfmt : pyLowerStr (form_get_str form "output_format" "glb") ≠ "obj") :
    (upload_try_body o job_id now form image_name fs).convertCalls = [] ∧
    ∀ b, (upload_try_body o job_id now form image_name fs).pending = .ok b →
      b.obj_url = Option.none := by
  unfold upload_try_body
  split
  · exact ⟨rfl, fun b hb => Except.noConfusion hb⟩
  · exact finishGeneration_not_obj o job_id now _ _ image_name fs hfmt

theorem url_try_body_not_obj (o : Oracles) (job_id : String) (now : Nat)
    (data : List (String × PyVal)) (image_url : PyVal) (fs : ServerFS) (s : String)
    (hpl : pyLower (dict_get data "output_format" (.str "glb")) = .ok s)
    (hs : s ≠ "obj") :
    (url_try_body o job_id now data image_url fs).convertCalls = [] ∧
    ∀ b, (url_try_body o job_id now data image_url fs).pending = .ok b →
      b.obj_url = Option.none := by
  unfold url_try_body
  split
  · exact ⟨rfl, fun b hb => Except.noConfusion hb⟩
  · split
    · exact ⟨rfl, fun b hb => Except.noConfusion hb⟩
    · split <;>
        (dsimp only
         rw [hpl]
         exact finishGeneration_not_obj o job_id now _ _ _ _ hs)

/-- C10: a generate request (either variant) whose `output_format`, after
lowercasing, is anything other than `"obj"` is processed GLB-only — the
converter is never invoked, a success response carries no `obj_url`, and the
unrecognized value triggers no validation error (a 400 can only come from
the file/`image_url` validation). -/
theorem output_format_non_obj_spec (o : Oracles) (job_id : String) (now : Nat)
    (req : UploadRequest) (data : List (String × PyVal)) (fs : ServerFS) :
    (pyLowerStr (form_get_str req.form "output_format" "glb") ≠ "obj" →
      (generate_3d_model o job_id now req fs).convertCalls = [] ∧
      (∀ jid st glb obj, (generate_3d_model o job_id now req fs).result =
          .success jid st glb obj → obj = Option.none) ∧
      (∀ f, req.files.lookup "file" = some f → f.filename ≠ "" →
        allowed_file f.filename = true →
        ∀ msg, (generate_3d_model o job_id now req fs).result ≠ .clientError msg)) ∧
    (∀ s, pyLower (dict_get data "output_format" (.str "glb")) = .ok s → s ≠ "obj" →
      (generate_from_url o job_id now (some data) fs).convertCalls = [] ∧
      (∀ jid st glb obj, (generate_from_url o job_id now (some data) fs).result =
          .success jid st glb obj → obj = Option.none) ∧
      ((data.lookup "image_url").isSome = true →
        ∀ msg, (generate_from_url o job_id now (some data) fs).result ≠
          .clientError msg)) := by
  constructor
  · intro hfmt
    cases hf : req.files.lookup "file" with
    | none =>
      refine ⟨by simp [generate_3d_model, hf], ?_, ?_⟩
      · intro jid st glb obj h
        simp [generate_3d_model, hf] at h
      · intro f hf2 _ _
        exact Option.noConfusion hf2
    | some file =>
      by_cases h1 : file.filename = ""
      · refine ⟨by simp [generate_3d_model, hf, h1], ?_, ?_⟩
        · intro jid st glb obj h
          simp [generate_3d_model, hf, h1] at h
        · intro f hf2 hne _
          rw [← Option.some.inj hf2] at hne
          exact absurd h1 hne
      · by_cases h2 : allowed_file file.filename = false
        · refine ⟨by simp [generate_3d_model, hf, h1, h2], ?_, ?_⟩
          · intro jid st glb obj h
            simp [generate_3d_model, hf, h1, h2] at h
          · intro f hf2 _ hal
            rw [← Option.some.inj hf2] at hal
            rw [hal] at h2
            exact Bool.noConfusion h2
        · have hbody := upload_try_body_not_obj o job_id now req.form
            (job_id ++ "_" ++ secure_filename file.filename)
            (saveUpload fs (job_id ++ "_" ++ secure_filename file.filename)) hfmt
          refine ⟨?_, ?_, ?_⟩
          · simp only [generate_3d_model, hf, if_neg h1, if_neg h2]
            exact hbody.1
          · intro jid st glb obj h
            simp only [generate_3d_model, hf, if_neg h1, if_neg h2] at h
            revert h
            cases hp : (upload_try_body o job_id now req.form
                (job_id ++ "_" ++ secure_filename file.filename)
                (saveUpload fs (job_id ++ "_" ++ secure_filename file.filename))).pending with
            | error e => intro h; simp at h
            | ok b =>
              intro h
              simp only [GenResult.success.injEq] at h
              rw [← h.2.2.2]
              exact hbody.2 b hp
          · intro f hf2 _ _ msg
            simp only [generate_3d_model, hf, if_neg h1, if_neg h2]
            cases hp : (upload_try_body o job_id now req.form
                (job_id ++ "_" ++ secure_filename file.filename)
                (saveUpload fs (job_id ++ "_" ++ secure_filename file.filename))).pending <;>
              simp
  · intro s hpl hs
    cases hl : data.lookup "image_url" with
    | none =>
      refine ⟨by simp [generate_from_url, hl], ?_, ?_⟩
      · intro jid st glb obj h
        simp [generate_from_url, hl] at h
      · intro hl2
        simp at hl2
    | some image_url =>
      have hbody := url_try_body_not_obj o job_id now data image_url fs s hpl hs
      cases hip : (url_try_body o job_id now data image_url fs).image_path with
      | none =>
        refine ⟨?_, ?_, ?_⟩
        · simp only [generate_from_url, hl, hip]
          exact hbody.1
        · intro jid st glb obj h
          simp [generate_from_url, hl, hip] at h
        · intro _ msg
          simp [generate_from_url, hl, hip]
      | some name =>
        refine ⟨?_, ?_, ?_⟩
        · simp only [generate_from_url, hl, hip]
          exact hbody.1
        · intro jid st glb obj h
          simp only [generate_from_url, hl, hip] at h
          revert h
          cases hp : (url_try_body o job_id now data image_url fs).pending with
          | error e => intro h; simp at h
          | ok b =>
            intro h
            simp only [GenResult.success.injEq] at h
            rw [← h.2.2.2]
            exact hbody.2 b hp
        · intro _ msg
          simp only [generate_from_url, hl, hip]
          cases hp : (url_try_body o job_id now data image_url fs).pending <;> simp

/-- C10 witness: `output_format=stl` on the upload path yields no converter
call; with `STL` the lowercased value is still not `"obj"`. -/
theorem output_format_non_obj_spec_witness :
    pyLowerStr (form_get_str [("output_format", "STL")] "output_format" "glb") ≠ "obj" ∧
    (generate_3d_model oracleOk "job10" 5
        ⟨[("file", ⟨"cat.png"⟩)], [("output_format", "STL")]⟩ fsEmpty).convertCalls = [] :=
  ⟨by decide,
   ((output_format_non_obj_spec oracleOk "job10" 5
      ⟨[("file", ⟨"cat.png"⟩)], [("output_format", "STL")]⟩ [] fsEmpty).1
      (by decide)).1⟩

/-! ## C6 — OBJ conversion and download -/

theorem pyEndsWith_append_obj (x : String) :
    pyEndsWith (x ++ ".obj") ".obj" = true := by
  unfold pyEndsWith
  rw [String.data_append, List.isSuffixOf_iff_suffix]
  exact List.suffix_append x.data ".obj".data

theorem mkOutDir_ok_mem (fs : ServerFS) (name : String) (now : Nat)
    (fs' : ServerFS) (h : mkOutDir fs name now = .ok fs') :
    ∃ d ∈ fs'.outDirs, d.name = name := by
  unfold mkOutDir at h
  split at h
  · exact Except.noConfusion h
  · split at h
    · rename_i hfind
      rw [← Except.ok.inj h]
      obtain ⟨d, hd⟩ := Option.isSome_iff_exists.mp hfind
      exact ⟨d, List.mem_of_find?_eq_some hd, by simpa using List.find?_some hd⟩
    · rw [← Except.ok.inj h]
      exact ⟨⟨name, now, []⟩, List.mem_cons_self .., rfl⟩

theorem putInDir_find (fs : ServerFS) (dname fname : String)
    (hmem : ∃ d ∈ fs.outDirs, d.name = dname) :
    ∃ d', (putInDir fs dname fname).outDirs.find? (·.name == dname) = some d' ∧
      fname ∈ d'.files := by
  obtain ⟨d, hdmem, hdname⟩ := hmem
  have hsome : (fs.outDirs.find? (·.name == dname)).isSome := by
    rw [List.find?_isSome]
    exact ⟨d, hdmem, by simp [hdname]⟩
  obtain ⟨d₀, h₀⟩ := Option.isSome_iff_exists.mp hsome
  have hname₀ : d₀.name = dname := by simpa using List.find?_some h₀
  unfold putInDir
  rw [List.find?_map]
  have hpe : ((fun d : OutDir => d.name == dname) ∘ (fun d : OutDir =>
      if d.name == dname then
        { d with files := if d.files.contains fname then d.files
                          else d.files ++ [fname] }
      else d)) = (fun d : OutDir => d.name == dname) := by
    funext d
    by_cases hd : d.name = dname
    · simp [hd]
    · simp [hd]
  rw [hpe, h₀]
  refine ⟨_, rfl, ?_⟩
  dsimp only
  rw [if_pos (by simp [hname₀])]
  split
  · rename_i hm2
    exact List.elem_iff.mp hm2
  · exact List.mem_append_right _ (List.mem_singleton.mpr rfl)

theorem download_obj_of_dir (fs : ServerFS) (job_id : String) (d : OutDir)
    (f : String) (hd : fs.outDirs.find? (·.name == job_id) = some d)
    (hf : d.files.find? (fun f => pyEndsWith f ".obj") = some f) :
    download_model fs job_id "obj" =
      .file (pathJoin (pathJoin OUTPUT_FOLDER job_id) f) (job_id ++ ".obj") := by
  simp [download_model, outExists, hd, hf]

theorem finishGeneration_obj_success (o : Oracles) (job_id : String) (now : Nat)
    (params : List (String × PyVal)) (image_name : String) (fs : ServerFS)
    (hjob : goodJobId job_id) (b : SuccessBody)
    (hpend : (finishGeneration o job_id now params "obj" image_name fs).pending = .ok b) :
    b = ⟨job_id, "completed", "/api/download/" ++ job_id ++ "/glb",
      some ("/api/download/" ++ job_id ++ "/obj")⟩ ∧
    ∃ d, (finishGeneration o job_id now params "obj" image_name fs).fs.outDirs.find?
        (·.name == job_id) = some d ∧
      ∃ f, d.files.find? (fun f => pyEndsWith f ".obj") = some f ∧
        pyEndsWith f ".obj" = true := by
  have hbase : splitextRoot (pathBasename (pathJoin OUTPUT_FOLDER (job_id ++ ".glb"))) =
      job_id := splitextRoot_basename_glb job_id hjob
  dsimp only [finishGeneration] at hpend ⊢
  cases hr : o.remote (fetchArgs (pathJoin UPLOAD_FOLDER image_name) params) with
  | error e =>
    rw [hr] at hpend
    exact Except.noConfusion hpend
  | ok g =>
    rw [hr] at hpend
    dsimp only at hpend ⊢
    cases hp : putOutFile fs (job_id ++ ".glb") now with
    | error e =>
      rw [hp] at hpend
      exact Except.noConfusion hpend
    | ok fs2 =>
      rw [hp] at hpend
      dsimp only at hpend ⊢
      rw [if_pos rfl] at hpend ⊢
      unfold convert_glb_to_obj at hpend ⊢
      rw [hbase] at hpend ⊢
      dsimp only at hpend ⊢
      cases hm : mkOutDir fs2 job_id now with
      | error e =>
        rw [hm] at hpend
        exact Except.noConfusion hpend
      | ok fs3 =>
        rw [hm] at hpend
        dsimp only at hpend ⊢
        cases hload : o.trimesh_load (pathJoin OUTPUT_FOLDER (job_id ++ ".glb")) with
        | error e =>
          rw [hload] at hpend
          exact Except.noConfusion hpend
        | ok u =>
          rw [hload] at hpend
          dsimp only at hpend ⊢
          refine ⟨(Except.ok.inj hpend).symm, ?_⟩
          obtain ⟨d', hfind, hmem'⟩ := putInDir_find fs3 job_id (job_id ++ ".obj")
            (mkOutDir_ok_mem fs2 job_id now fs3 hm)
          refine ⟨d', hfind, ?_⟩
          have hfsome : (d'.files.find? (fun f => pyEndsWith f ".obj")).isSome := by
            rw [List.find?_isSome]
            exact ⟨job_id ++ ".obj", hmem', pyEndsWith_append_obj job_id⟩
          obtain ⟨f, hf⟩ := Option.isSome_iff_exists.mp hfsome
          exact ⟨f, hf, @List.find?_some String (fun s => pyEndsWith s ".obj") f d'.files hf⟩

theorem upload_try_body_obj (o : Oracles) (job_id : String) (now : Nat)
    (form : List (String × String)) (image_name : String) (fs : ServerFS)
    (hjob : goodJobId job_id)
    (hfmt : pyLowerStr (form_get_str form "output_format" "glb") = "obj")
    (b : SuccessBody)
    (hpend : (upload_try_body o job_id now form image_name fs).pending = .ok b) :
    b = ⟨job_id, "completed", "/api/download/" ++ job_id ++ "/glb",
      some ("/api/download/" ++ job_id ++ "/obj")⟩ ∧
    ∃ d, (upload_try_body o job_id now form image_name fs).fs.outDirs.find?
        (·.name == job_id) = some d ∧
      ∃ f, d.files.find? (fun f => pyEndsWith f ".obj") = some f ∧
        pyEndsWith f ".obj" = true := by
  unfold upload_try_body at hpend ⊢
  cases hup : uploadParams form with
  | error e =>
    rw [hup] at hpend
    exact Except.noConfusion hpend
  | ok params =>
    rw [hup] at hpend
    dsimp only at hpend ⊢
    rw [hfmt] at hpend ⊢
    exact finishGeneration_obj_success o job_id now params image_name fs hjob b hpend

theorem url_try_body_obj (o : Oracles) (job_id : String) (now : Nat)
    (data : List (String × PyVal)) (image_url : PyVal) (fs : ServerFS)
    (hjob : goodJobId job_id)
    (hpl : pyLower (dict_get data "output_format" (.str "glb")) = .ok "obj")
    (b : SuccessBody)
    (hpend : (url_try_body o job_id now data image_url fs).pending = .ok b) :
    b = ⟨job_id, "completed", "/api/download/" ++ job_id ++ "/glb",
      some ("/api/download/" ++ job_id ++ "/obj")⟩ ∧
    ∃ d, (url_try_body o job_id now data image_url fs).fs.outDirs.find?
        (·.name == job_id) = some d ∧
      ∃ f, d.files.find? (fun f => pyEndsWith f ".obj") = some f ∧
        pyEndsWith f ".obj" = true := by
  unfold url_try_body at hpend ⊢
  cases hg : o.http_get image_url with
  | error e =>
    rw [hg] at hpend
    exact Except.noConfusion hpend
  | ok u =>
    rw [hg] at hpend
    dsimp only at hpend ⊢
    cases he : extFromUrl image_url with
    | error e =>
      rw [he] at hpend
      exact Except.noConfusion hpend
    | ok rawExt =>
      rw [he] at hpend
      dsimp only at hpend ⊢
      rw [hpl] at hpend ⊢
      dsimp only at hpend ⊢
      exact finishGeneration_obj_success o job_id now (urlParams data) _ _ hjob b hpend

/-- C6: a successful generate request (either variant) with lowercased
`output_format` equal to `obj` answers with `job_id`, status `"completed"`,
`glb_url`, and additionally `obj_url`; the artifact that `obj_url` resolves
to through the download endpoint is a file whose name ends in `.obj`, served
from the subdirectory named after the GLB's base filename (which equals the
job id). -/
theorem obj_format_obj_artifact (o : Oracles) (job_id : String) (now : Nat)
    (req : UploadRequest) (data : List (String × PyVal)) (fs : ServerFS)
    (hjob : goodJobId job_id) :
    (pyLowerStr (form_get_str req.form "output_format" "glb") = "obj" →
      ∀ jid st glb obj,
        (generate_3d_model o job_id now req fs).result = .success jid st glb obj →
        jid = job_id ∧ st = "completed" ∧
        glb = "/api/download/" ++ job_id ++ "/glb" ∧
        obj = some ("/api/download/" ++ job_id ++ "/obj") ∧
        splitextRoot (pathBasename (pathJoin OUTPUT_FOLDER (job_id ++ ".glb"))) = job_id ∧
        ∃ f, download_model (generate_3d_model o job_id now req fs).fs job_id "obj" =
            .file (pathJoin (pathJoin OUTPUT_FOLDER job_id) f) (job_id ++ ".obj") ∧
          pyEndsWith f ".obj" = true) ∧
    (pyLower (dict_get data "output_format" (.str "glb")) = .ok "obj" →
      ∀ jid st glb obj,
        (generate_from_url o job_id now (some data) fs).result = .success jid st glb obj →
        jid = job_id ∧ st = "completed" ∧
        glb = "/api/download/" ++ job_id ++ "/glb" ∧
        obj = some ("/api/download/" ++ job_id ++ "/obj") ∧
        splitextRoot (pathBasename (pathJoin OUTPUT_FOLDER (job_id ++ ".glb"))) = job_id ∧
        ∃ f, download_model (generate_from_url o job_id now (some data) fs).fs job_id "obj" =
            .file (pathJoin (pathJoin OUTPUT_FOLDER job_id) f) (job_id ++ ".obj") ∧
          pyEndsWith f ".obj" = true) := by
  constructor
  · intro hfmt jid st glb obj hres
    cases hf : req.files.lookup "file" with
    | none => simp [generate_3d_model, hf] at hres
    | some file =>
      by_cases h1 : file.filename = ""
      · simp [generate_3d_model, hf, h1] at hres
      · by_cases h2 : allowed_file file.filename = false
        · simp [generate_3d_model, hf, h1, h2] at hres
        · simp only [generate_3d_model, hf, if_neg h1, if_neg h2] at hres ⊢
          cases hp : (upload_try_body o job_id now req.form
              (job_id ++ "_" ++ secure_filename file.filename)
              (saveUpload fs (job_id ++ "_" ++ secure_filename file.filename))).pending with
          | error e =>
            rw [hp] at hres
            simp at hres
          | ok b =>
            rw [hp] at hres
            simp only [GenResult.success.injEq] at hres
            obtain ⟨hb, d, hfind, f, hf2, hend⟩ := upload_try_body_obj o job_id now
              req.form (job_id ++ "_" ++ secure_filename file.filename)
              (saveUpload fs (job_id ++ "_" ++ secure_filename file.filename))
              hjob hfmt b hp
            simp only [hb] at hres
            obtain ⟨e1, e2, e3, e4⟩ := hres
            refine ⟨e1.symm, e2.symm, e3.symm, e4.symm,
              splitextRoot_basename_glb job_id hjob, f, ?_, hend⟩
            apply download_obj_of_dir
            · rw [outDirs_after_finally]
              exact hfind
            · exact hf2
  · intro hpl jid st glb obj hres
    cases hl : data.lookup "image_url" with
    | none => simp [generate_from_url, hl] at hres
    | some image_url =>
      cases hip : (url_try_body o job_id now data image_url fs).image_path with
      | none => simp [generate_from_url, hl, hip] at hres
      | some name =>
        simp only [generate_from_url, hl, hip] at hres ⊢
        cases hp : (url_try_body o job_id now data image_url fs).pending with
        | error e =>
          rw [hp] at hres
          simp at hres
        | ok b =>
          rw [hp] at hres
          simp only [GenResult.success.injEq] at hres
          obtain ⟨hb, d, hfind, f, hf2, hend⟩ := url_try_body_obj o job_id now
            data image_url fs hjob hpl b hp
          simp only [hb] at hres
          obtain ⟨e1, e2, e3, e4⟩ := hres
          refine ⟨e1.symm, e2.symm, e3.symm, e4.symm,
            splitextRoot_basename_glb job_id hjob, f, ?_, hend⟩
          apply download_obj_of_dir
          · rw [outDirs_after_finally]
            exact hfind
          · exact hf2

/-- C6 witness: a concrete successful `output_format=obj` upload whose
`obj_url` artifact downloads as a `.obj` file from the job's subdirectory. -/
theorem obj_format_obj_artifact_witness :
    goodJobId "job6" ∧
    ∃ f, download_model (generate_3d_model oracleOk "job6" 5
        ⟨[("file", ⟨"cat.png"⟩)], [("output_format", "obj")]⟩ fsEmpty).fs "job6" "obj" =
        .file (pathJoin (pathJoin OUTPUT_FOLDER "job6") f) ("job6" ++ ".obj") ∧
      pyEndsWith f ".obj" = true :=
  ⟨by decide,
   ((obj_format_obj_artifact oracleOk "job6" 5
      ⟨[("file", ⟨"cat.png"⟩)], [("output_format", "obj")]⟩ [] fsEmpty (by decide)).1
      (by decide) "job6" "completed" ("/api/download/" ++ "job6" ++ "/glb")
      (some ("/api/download/" ++ "job6" ++ "/obj")) (by decide)).2.2.2.2.2⟩
